import Mathlib

/-!
Verification of the authorization permissions/policies client modules
(`lib/authorizations-permissions.js` and the parallel policies module).

Each module exposes four verbs (`create`, `find`, `update`, `remove`); each
verb is a two-level factory whose inner function validates its arguments,
builds one HTTP request descriptor, issues it through the `request` library
and maps the node-style callback outcome `(err, resp, body)` to a resolve or
reject of the returned promise.

The shallow embedding below represents one invocation of a verb as a pure
function from its arguments and the transport outcome(s) to an `OpTrace`:
the list of HTTP requests issued, the list of `find` invocations made, and
the list of resolve/reject calls performed (where a `resolve(promise)` is
recorded as the settlement eventually adopted from that inner promise).
-/

/-- A JavaScript value as observed by the wrapper: `undefined`, an `Error`
object carrying a message, or an arbitrary JSON payload abstracted by its
serialized text. -/
inductive JsValue where
  | undef
  | errObj (message : String)
  | json (payload : String)
deriving DecidableEq, Repr

/-- The client handle captured by the outer factory call: its base URL and
the access token the module reads from the shared private map
(`privates.get(client).accessToken`). -/
structure Client where
  baseUrl : String
  accessToken : String
deriving DecidableEq, Repr

/-- The JSON representation of a permission or policy. Only the `type` and
`id` fields are inspected by the client (to interpolate URLs); every other
field is carried opaquely in `rest`. `none` models an absent (`undefined`)
field. -/
structure ResourceRep where
  type? : Option String
  id? : Option String
  rest : String
deriving DecidableEq, Repr

/-- JavaScript template-literal interpolation of a possibly absent string:
an absent (`undefined`) value prints as the literal string "undefined". -/
def jsStr : Option String → String
  | some s => s
  | none => "undefined"

/-- A request descriptor as handed to the `request` library: the URL, the
bearer token, the optional HTTP method (`none` means the library default,
GET), the optional JSON body, and the `json: true` flag. -/
structure HttpRequest where
  url : String
  bearer : String
  method? : Option String
  body? : Option ResourceRep
  json : Bool
deriving DecidableEq, Repr

/-- The outcome of one HTTP call as delivered to the node-style callback
`(err, resp, body)`: either a truthy `err` (the call could not complete) or
a completed response carrying a status code and a body. -/
inductive TransportResult where
  | error (e : JsValue)
  | completed (statusCode : Nat) (body : JsValue)
deriving DecidableEq, Repr

/-- One settlement of a promise: a call to `resolve` or to `reject`. A bare
`resolve()` with no argument is `resolved .undef`. -/
inductive Settlement where
  | resolved (v : JsValue)
  | rejected (v : JsValue)
deriving DecidableEq, Repr

/-- The arguments of one invocation of a module's `find` function:
`find(realm, id, type, id)` with the two trailing arguments optional. -/
structure FindArgs where
  realm : String
  clientId : String
  type? : Option String
  id? : Option String
deriving DecidableEq, Repr

/-- Everything observable about one verb invocation: the HTTP requests
issued in order, the `find` invocations performed, and the resolve/reject
calls made (the settlement adopted from an inner promise included). -/
structure OpTrace where
  requests : List HttpRequest
  findCalls : List FindArgs
  settlements : List Settlement
deriving DecidableEq, Repr

/-- Transcription of `create` from `lib/authorizations-permissions.js`:
rejects with `new Error('permission is missing')` before building any
request when the record argument is falsy; otherwise POSTs the record to
`.../authz/resource-server/permission/{permission.type}` and maps the
callback to reject(err) on transport error, reject(body) on a status other
than 201, and resolve(body) on 201. -/
def permissions.create (client : Client) (realm cid : String)
    (permission : Option ResourceRep) (t : TransportResult) : OpTrace :=
  match permission with
  | none =>
    { requests := [], findCalls := [],
      settlements := [.rejected (.errObj ("permission" ++ " is missing"))] }
  | some p =>
    let req : HttpRequest :=
      { url := client.baseUrl ++ "/admin/realms/" ++ realm ++ "/clients/" ++
          cid ++ "/authz/resource-server/" ++ "permission" ++ "/" ++
          jsStr p.type?,
        bearer := client.accessToken,
        method? := some "POST",
        body? := some p,
        json := true }
    match t with
    | .error e =>
      { requests := [req], findCalls := [], settlements := [.rejected e] }
    | .completed statusCode body =>
      if statusCode ≠ 201 then
        { requests := [req], findCalls := [], settlements := [.rejected body] }
      else
        { requests := [req], findCalls := [], settlements := [.resolved body] }

/-- Transcription of `find` from `lib/authorizations-permissions.js`: when
both the type and the id argument are truthy it GETs the single record at
`.../permission/{type}/{id}`, otherwise it GETs the bare collection at
`.../permission`; the callback rejects with err on transport error, rejects
with the body on a status other than 200 and resolves with the body on
200. -/
def permissions.find (client : Client) (realm cid : String)
    (permissionType permissionId : Option String) (t : TransportResult) :
    OpTrace :=
  let req : HttpRequest :=
    { url :=
        match permissionId, permissionType with
        | some pid, some pt =>
          client.baseUrl ++ "/admin/realms/" ++ realm ++ "/clients/" ++
            cid ++ "/authz/resource-server/" ++ "permission" ++ "/" ++ pt ++
            "/" ++ pid
        | _, _ =>
          client.baseUrl ++ "/admin/realms/" ++ realm ++ "/clients/" ++
            cid ++ "/authz/resource-server/" ++ "permission",
      bearer := client.accessToken,
      method? := none,
      body? := none,
      json := true }
  match t with
  | .error e =>
    { requests := [req], findCalls := [], settlements := [.rejected e] }
  | .completed statusCode body =>
    if statusCode ≠ 200 then
      { requests := [req], findCalls := [], settlements := [.rejected body] }
    else
      { requests := [req], findCalls := [], settlements := [.resolved body] }

/-- Transcription of `update` from `lib/authorizations-permissions.js`:
rejects with `new Error('permission is missing')` before building any
request when the record argument is falsy; otherwise PUTs the record to
`.../permission/{permission.type}/{permission.id}` and, on a 204 response,
resolves with the promise of `find(realm, id, permission.type,
permission.id)`, so the returned promise adopts that find call's requests
and settlement. `tFind` is the transport outcome of that re-fetching GET,
consulted only on the 204 path. -/
def permissions.update (client : Client) (realm cid : String)
    (permission : Option ResourceRep) (t tFind : TransportResult) : OpTrace :=
  match permission with
  | none =>
    { requests := [], findCalls := [],
      settlements := [.rejected (.errObj ("permission" ++ " is missing"))] }
  | some p =>
    let req : HttpRequest :=
      { url := client.baseUrl ++ "/admin/realms/" ++ realm ++ "/clients/" ++
          cid ++ "/authz/resource-server/" ++ "permission" ++ "/" ++
          jsStr p.type? ++ "/" ++ jsStr p.id?,
        bearer := client.accessToken,
        method? := some "PUT",
        body? := some p,
        json := true }
    match t with
    | .error e =>
      { requests := [req], findCalls := [], settlements := [.rejected e] }
    | .completed statusCode body =>
      if statusCode ≠ 204 then
        { requests := [req], findCalls := [], settlements := [.rejected body] }
      else
        let ft := permissions.find client realm cid p.type? p.id? tFind
        { requests := req :: ft.requests,
          findCalls := [⟨realm, cid, p.type?, p.id?⟩],
          settlements := ft.settlements }

/-- Transcription of `remove` from `lib/authorizations-permissions.js`:
rejects with `new Error('permissionId is missing')` before building any
request when the id argument is falsy; otherwise DELETEs
`.../permission/{permissionId}` and maps the callback to reject(err) on
transport error, reject(body) on a status other than 204, and a bare
`resolve()` (resolving with `undefined`) on 204. -/
def permissions.remove (client : Client) (realm cid : String)
    (permissionId : Option String) (t : TransportResult) : OpTrace :=
  match permissionId with
  | none =>
    { requests := [], findCalls := [],
      settlements := [.rejected (.errObj ("permission" ++ "Id is missing"))] }
  | some pid =>
    let req : HttpRequest :=
      { url := client.baseUrl ++ "/admin/realms/" ++ realm ++ "/clients/" ++
          cid ++ "/authz/resource-server/" ++ "permission" ++ "/" ++ pid,
        bearer := client.accessToken,
        method? := some "DELETE",
        body? := none,
        json := true }
    match t with
    | .error e =>
      { requests := [req], findCalls := [], settlements := [.rejected e] }
    | .completed statusCode body =>
      if statusCode ≠ 204 then
        { requests := [req], findCalls := [], settlements := [.rejected body] }
      else
        { requests := [req], findCalls := [],
          settlements := [.resolved .undef] }

/-- Transcription of `create` from the parallel policies module: identical
to the permissions `create` except that the path segment is `policy` and
the missing-argument message names `policy`. -/
def policies.create (client : Client) (realm cid : String)
    (policy : Option ResourceRep) (t : TransportResult) : OpTrace :=
  match policy with
  | none =>
    { requests := [], findCalls := [],
      settlements := [.rejected (.errObj ("policy" ++ " is missing"))] }
  | some p =>
    let req : HttpRequest :=
      { url := client.baseUrl ++ "/admin/realms/" ++ realm ++ "/clients/" ++
          cid ++ "/authz/resource-server/" ++ "policy" ++ "/" ++
          jsStr p.type?,
        bearer := client.accessToken,
        method? := some "POST",
        body? := some p,
        json := true }
    match t with
    | .error e =>
      { requests := [req], findCalls := [], settlements := [.rejected e] }
    | .completed statusCode body =>
      if statusCode ≠ 201 then
        { requests := [req], findCalls := [], settlements := [.rejected body] }
      else
        { requests := [req], findCalls := [], settlements := [.resolved body] }

/-- Transcription of `find` from the parallel policies module: identical to
the permissions `find` except for the `policy` path segment. -/
def policies.find (client : Client) (realm cid : String)
    (policyType policyId : Option String) (t : TransportResult) : OpTrace :=
  let req : HttpRequest :=
    { url :=
        match policyId, policyType with
        | some pid, some pt =>
          client.baseUrl ++ "/admin/realms/" ++ realm ++ "/clients/" ++
            cid ++ "/authz/resource-server/" ++ "policy" ++ "/" ++ pt ++
            "/" ++ pid
        | _, _ =>
          client.baseUrl ++ "/admin/realms/" ++ realm ++ "/clients/" ++
            cid ++ "/authz/resource-server/" ++ "policy",
      bearer := client.accessToken,
      method? := none,
      body? := none,
      json := true }
  match t with
  | .error e =>
    { requests := [req], findCalls := [], settlements := [.rejected e] }
  | .completed statusCode body =>
    if statusCode ≠ 200 then
      { requests := [req], findCalls := [], settlements := [.rejected body] }
    else
      { requests := [req], findCalls := [], settlements := [.resolved body] }

/-- Transcription of `update` from the parallel policies module: identical
to the permissions `update` except for the `policy` path segment and the
missing-argument message; on 204 it resolves with the promise of the
policies module's own `find`. -/
def policies.update (client : Client) (realm cid : String)
    (policy : Option ResourceRep) (t tFind : TransportResult) : OpTrace :=
  match policy with
  | none =>
    { requests := [], findCalls := [],
      settlements := [.rejected (.errObj ("policy" ++ " is missing"))] }
  | some p =>
    let req : HttpRequest :=
      { url := client.baseUrl ++ "/admin/realms/" ++ realm ++ "/clients/" ++
          cid ++ "/authz/resource-server/" ++ "policy" ++ "/" ++
          jsStr p.type? ++ "/" ++ jsStr p.id?,
        bearer := client.accessToken,
        method? := some "PUT",
        body? := some p,
        json := true }
    match t with
    | .error e =>
      { requests := [req], findCalls := [], settlements := [.rejected e] }
    | .completed statusCode body =>
      if statusCode ≠ 204 then
        { requests := [req], findCalls := [], settlements := [.rejected body] }
      else
        let ft := policies.find client realm cid p.type? p.id? tFind
        { requests := req :: ft.requests,
          findCalls := [⟨realm, cid, p.type?, p.id?⟩],
          settlements := ft.settlements }

/-- Transcription of `remove` from the parallel policies module: identical
to the permissions `remove` except for the `policy` path segment and the
`policyId is missing` message. -/
def policies.remove (client : Client) (realm cid : String)
    (policyId : Option String) (t : TransportResult) : OpTrace :=
  match policyId with
  | none =>
    { requests := [], findCalls := [],
      settlements := [.rejected (.errObj ("policy" ++ "Id is missing"))] }
  | some pid =>
    let req : HttpRequest :=
      { url := client.baseUrl ++ "/admin/realms/" ++ realm ++ "/clients/" ++
          cid ++ "/authz/resource-server/" ++ "policy" ++ "/" ++ pid,
        bearer := client.accessToken,
        method? := some "DELETE",
        body? := none,
        json := true }
    match t with
    | .error e =>
      { requests := [req], findCalls := [], settlements := [.rejected e] }
    | .completed statusCode body =>
      if statusCode ≠ 204 then
        { requests := [req], findCalls := [], settlements := [.rejected body] }
      else
        { requests := [req], findCalls := [],
          settlements := [.resolved .undef] }

/-- The common template both modules instantiate: `create` parameterized by
the resource-type segment `seg`, which also names the record argument in
the missing-argument message. -/
def generic.create (seg : String) (client : Client) (realm cid : String)
    (record : Option ResourceRep) (t : TransportResult) : OpTrace :=
  match record with
  | none =>
    { requests := [], findCalls := [],
      settlements := [.rejected (.errObj (seg ++ " is missing"))] }
  | some p =>
    let req : HttpRequest :=
      { url := client.baseUrl ++ "/admin/realms/" ++ realm ++ "/clients/" ++
          cid ++ "/authz/resource-server/" ++ seg ++ "/" ++
          jsStr p.type?,
        bearer := client.accessToken,
        method? := some "POST",
        body? := some p,
        json := true }
    match t with
    | .error e =>
      { requests := [req], findCalls := [], settlements := [.rejected e] }
    | .completed statusCode body =>
      if statusCode ≠ 201 then
        { requests := [req], findCalls := [], settlements := [.rejected body] }
      else
        { requests := [req], findCalls := [], settlements := [.resolved body] }

/-- The common template both modules instantiate: `find` parameterized by
the resource-type segment. -/
def generic.find (seg : String) (client : Client) (realm cid : String)
    (recType recId : Option String) (t : TransportResult) : OpTrace :=
  let req : HttpRequest :=
    { url :=
        match recId, recType with
        | some pid, some pt =>
          client.baseUrl ++ "/admin/realms/" ++ realm ++ "/clients/" ++
            cid ++ "/authz/resource-server/" ++ seg ++ "/" ++ pt ++
            "/" ++ pid
        | _, _ =>
          client.baseUrl ++ "/admin/realms/" ++ realm ++ "/clients/" ++
            cid ++ "/authz/resource-server/" ++ seg,
      bearer := client.accessToken,
      method? := none,
      body? := none,
      json := true }
  match t with
  | .error e =>
    { requests := [req], findCalls := [], settlements := [.rejected e] }
  | .completed statusCode body =>
    if statusCode ≠ 200 then
      { requests := [req], findCalls := [], settlements := [.rejected body] }
    else
      { requests := [req], findCalls := [], settlements := [.resolved body] }

/-- The common template both modules instantiate: `update` parameterized by
the resource-type segment; on 204 it resolves with the promise of the
template `find` at the same segment. -/
def generic.update (seg : String) (client : Client) (realm cid : String)
    (record : Option ResourceRep) (t tFind : TransportResult) : OpTrace :=
  match record with
  | none =>
    { requests := [], findCalls := [],
      settlements := [.rejected (.errObj (seg ++ " is missing"))] }
  | some p =>
    let req : HttpRequest :=
      { url := client.baseUrl ++ "/admin/realms/" ++ realm ++ "/clients/" ++
          cid ++ "/authz/resource-server/" ++ seg ++ "/" ++
          jsStr p.type? ++ "/" ++ jsStr p.id?,
        bearer := client.accessToken,
        method? := some "PUT",
        body? := some p,
        json := true }
    match t with
    | .error e =>
      { requests := [req], findCalls := [], settlements := [.rejected e] }
    | .completed statusCode body =>
      if statusCode ≠ 204 then
        { requests := [req], findCalls := [], settlements := [.rejected body] }
      else
        let ft := generic.find seg client realm cid p.type? p.id? tFind
        { requests := req :: ft.requests,
          findCalls := [⟨realm, cid, p.type?, p.id?⟩],
          settlements := ft.settlements }

/-- The common template both modules instantiate: `remove` parameterized by
the resource-type segment, which with the suffix `Id` also names the
argument in the missing-argument message. -/
def generic.remove (seg : String) (client : Client) (realm cid : String)
    (recordId : Option String) (t : TransportResult) : OpTrace :=
  match recordId with
  | none =>
    { requests := [], findCalls := [],
      settlements := [.rejected (.errObj (seg ++ "Id is missing"))] }
  | some pid =>
    let req : HttpRequest :=
      { url := client.baseUrl ++ "/admin/realms/" ++ realm ++ "/clients/" ++
          cid ++ "/authz/resource-server/" ++ seg ++ "/" ++ pid,
        bearer := client.accessToken,
        method? := some "DELETE",
        body? := none,
        json := true }
    match t with
    | .error e =>
      { requests := [req], findCalls := [], settlements := [.rejected e] }
    | .completed statusCode body =>
      if statusCode ≠ 204 then
        { requests := [req], findCalls := [], settlements := [.rejected body] }
      else
        { requests := [req], findCalls := [],
          settlements := [.resolved .undef] }

/-- C1: for every update call (permissions or policies) whose record
argument is present and whose HTTP response has status 204, the operation
performs exactly one subsequent find call with the same realm, client id,
type and id taken from the record, and the update promise resolves with
(adopts) the result of that find call. -/
theorem C1_update_204_refetches_with_record_args :
    ∀ (client : Client) (realm cid : String) (p : ResourceRep)
      (b : JsValue) (tFind : TransportResult),
      ((permissions.update client realm cid (some p)
          (.completed 204 b) tFind).findCalls
        = [⟨realm, cid, p.type?, p.id?⟩])
      ∧ ((permissions.update client realm cid (some p)
          (.completed 204 b) tFind).settlements
        = (permissions.find client realm cid p.type? p.id? tFind).settlements)
      ∧ ((policies.update client realm cid (some p)
          (.completed 204 b) tFind).findCalls
        = [⟨realm, cid, p.type?, p.id?⟩])
      ∧ ((policies.update client realm cid (some p)
          (.completed 204 b) tFind).settlements
        = (policies.find client realm cid p.type? p.id? tFind).settlements) := by
  intro client realm cid p b tFind
  exact ⟨rfl, rfl, rfl, rfl⟩

/-- C2: for every create or update call with an absent record argument, and
every remove call with an absent id argument, the operation rejects with
the module's missing-argument Error and issues no request at all (the
trace is independent of any transport outcome). -/
theorem C2_missing_argument_rejects_before_any_request :
    ∀ (client : Client) (realm cid : String) (t tFind : TransportResult),
      (permissions.create client realm cid none t
        = { requests := [], findCalls := [],
            settlements := [.rejected (.errObj "permission is missing")] })
      ∧ (permissions.update client realm cid none t tFind
        = { requests := [], findCalls := [],
            settlements := [.rejected (.errObj "permission is missing")] })
      ∧ (permissions.remove client realm cid none t
        = { requests := [], findCalls := [],
            settlements := [.rejected (.errObj "permissionId is missing")] })
      ∧ (policies.create client realm cid none t
        = { requests := [], findCalls := [],
            settlements := [.rejected (.errObj "policy is missing")] })
      ∧ (policies.update client realm cid none t tFind
        = { requests := [], findCalls := [],
            settlements := [.rejected (.errObj "policy is missing")] })
      ∧ (policies.remove client realm cid none t
        = { requests := [], findCalls := [],
            settlements := [.rejected (.errObj "policyId is missing")] }) := by
  intro client realm cid t tFind
  exact ⟨rfl, rfl, rfl, rfl, rfl, rfl⟩

/-- C3 counterexample: the claim says the promise resolves with the
response body exactly when the status equals the verb's success code, 204
for remove included; but a remove that completes with 204 and a non-empty
body resolves with `undefined`, not with that body. -/
theorem C3_counterexample_remove_204_drops_body :
    (permissions.remove ⟨"http://127.0.0.1:8080/auth", "token"⟩ "master" "c1"
        (some "p1") (.completed 204 (.json "x"))).settlements
      = [.resolved .undef]
    ∧ [Settlement.resolved .undef] ≠ [Settlement.resolved (.json "x")] := by
  exact ⟨rfl, by decide⟩

/-- C3 amended: for every operation that completes its HTTP call, the
promise settles on the verb's single success code as follows — create
(201) and find (200) resolve with the response body, remove (204) resolves
with no value, and update (204) adopts the outcome of the re-fetching find
— and for every other status code it rejects with the raw response body as
the error payload. -/
theorem C3_status_code_mapping :
    ∀ (client : Client) (realm cid rid : String) (p : ResourceRep)
      (ty pid : Option String) (s : Nat) (b : JsValue)
      (tFind : TransportResult),
      ((permissions.create client realm cid (some p)
          (.completed s b)).settlements
        = if s = 201 then [.resolved b] else [.rejected b])
      ∧ ((permissions.find client realm cid ty pid
          (.completed s b)).settlements
        = if s = 200 then [.resolved b] else [.rejected b])
      ∧ ((permissions.update client realm cid (some p)
          (.completed s b) tFind).settlements
        = if s = 204
          then (permissions.find client realm cid p.type? p.id?
            tFind).settlements
          else [.rejected b])
      ∧ ((permissions.remove client realm cid (some rid)
          (.completed s b)).settlements
        = if s = 204 then [.resolved .undef] else [.rejected b])
      ∧ ((policies.create client realm cid (some p)
          (.completed s b)).settlements
        = if s = 201 then [.resolved b] else [.rejected b])
      ∧ ((policies.find client realm cid ty pid
          (.completed s b)).settlements
        = if s = 200 then [.resolved b] else [.rejected b])
      ∧ ((policies.update client realm cid (some p)
          (.completed s b) tFind).settlements
        = if s = 204
          then (policies.find client realm cid p.type? p.id?
            tFind).settlements
          else [.rejected b])
      ∧ ((policies.remove client realm cid (some rid)
          (.completed s b)).settlements
        = if s = 204 then [.resolved .undef] else [.rejected b]) := by
  intro client realm cid rid p ty pid s b tFind
  refine ⟨?_, ?_, ?_, ?_, ?_, ?_, ?_, ?_⟩
  · by_cases h : s = 201 <;> simp [permissions.create, h]
  · by_cases h : s = 200 <;> simp [permissions.find, h]
  · by_cases h : s = 204 <;> simp [permissions.update, h]
  · by_cases h : s = 204 <;> simp [permissions.remove, h]
  · by_cases h : s = 201 <;> simp [policies.create, h]
  · by_cases h : s = 200 <;> simp [policies.find, h]
  · by_cases h : s = 204 <;> simp [policies.update, h]
  · by_cases h : s = 204 <;> simp [policies.remove, h]

/-- C4: for every remove call with an id provided, a completed HTTP call
with status 204 resolves the promise with no value (`undefined`) and in
particular not with the response body. -/
theorem C4_remove_204_resolves_with_no_value :
    ∀ (client : Client) (realm cid pid : String) (b : JsValue) (s : String),
      ((permissions.remove client realm cid (some pid)
          (.completed 204 b)).settlements = [.resolved .undef])
      ∧ ((permissions.remove client realm cid (some pid)
          (.completed 204 (.json s))).settlements ≠ [.resolved (.json s)])
      ∧ ((policies.remove client realm cid (some pid)
          (.completed 204 b)).settlements = [.resolved .undef])
      ∧ ((policies.remove client realm cid (some pid)
          (.completed 204 (.json s))).settlements ≠ [.resolved (.json s)]) := by
  intro client realm cid pid b s
  refine ⟨rfl, ?_, rfl, ?_⟩
  · simp [permissions.remove]
  · simp [policies.remove]

/-- C5: for every verb, when the HTTP call itself cannot complete the
promise rejects with the underlying transport error object unchanged, and
exactly one request was attempted (no retry, no local recovery). -/
theorem C5_transport_error_propagates_unchanged :
    ∀ (client : Client) (realm cid rid : String) (p : ResourceRep)
      (ty pid : Option String) (e : JsValue) (tFind : TransportResult),
      ((permissions.create client realm cid (some p) (.error e)).settlements
          = [.rejected e]
        ∧ (permissions.create client realm cid (some p)
            (.error e)).requests.length = 1)
      ∧ ((permissions.find client realm cid ty pid (.error e)).settlements
          = [.rejected e]
        ∧ (permissions.find client realm cid ty pid
            (.error e)).requests.length = 1)
      ∧ ((permissions.update client realm cid (some p)
            (.error e) tFind).settlements = [.rejected e]
        ∧ (permissions.update client realm cid (some p)
            (.error e) tFind).requests.length = 1)
      ∧ ((permissions.remove client realm cid (some rid)
            (.error e)).settlements = [.rejected e]
        ∧ (permissions.remove client realm cid (some rid)
            (.error e)).requests.length = 1)
      ∧ ((policies.create client realm cid (some p) (.error e)).settlements
          = [.rejected e]
        ∧ (policies.create client realm cid (some p)
            (.error e)).requests.length = 1)
      ∧ ((policies.find client realm cid ty pid (.error e)).settlements
          = [.rejected e]
        ∧ (policies.find client realm cid ty pid
            (.error e)).requests.length = 1)
      ∧ ((policies.update client realm cid (some p)
            (.error e) tFind).settlements = [.rejected e]
        ∧ (policies.update client realm cid (some p)
            (.error e) tFind).requests.length = 1)
      ∧ ((policies.remove client realm cid (some rid)
            (.error e)).settlements = [.rejected e]
        ∧ (policies.remove client realm cid (some rid)
            (.error e)).requests.length = 1) := by
  intro client realm cid rid p ty pid e tFind
  exact ⟨⟨rfl, rfl⟩, ⟨rfl, rfl⟩, ⟨rfl, rfl⟩, ⟨rfl, rfl⟩,
    ⟨rfl, rfl⟩, ⟨rfl, rfl⟩, ⟨rfl, rfl⟩, ⟨rfl, rfl⟩⟩

/-- C6: every operation builds its request URL on the pattern
`baseUrl/admin/realms/realm/clients/clientId/authz/resource-server/` plus
the resource-type segment: create appends the record's type, find with a
type+id pair appends the type then the id, find without the pair targets
the bare resource-type collection, update appends the record's type then
id, and remove appends only the id. -/
theorem C6_request_url_shapes :
    ∀ (client : Client) (realm cid : String) (p : ResourceRep)
      (ty rid : String) (t tFind : TransportResult),
      ((permissions.create client realm cid (some p) t).requests.map
          HttpRequest.url
        = [client.baseUrl ++ "/admin/realms/" ++ realm ++ "/clients/" ++
            cid ++ "/authz/resource-server/" ++ "permission" ++ "/" ++
            jsStr p.type?])
      ∧ ((permissions.find client realm cid (some ty) (some rid) t).requests.map
          HttpRequest.url
        = [client.baseUrl ++ "/admin/realms/" ++ realm ++ "/clients/" ++
            cid ++ "/authz/resource-server/" ++ "permission" ++ "/" ++ ty ++
            "/" ++ rid])
      ∧ ((permissions.find client realm cid none none t).requests.map
          HttpRequest.url
        = [client.baseUrl ++ "/admin/realms/" ++ realm ++ "/clients/" ++
            cid ++ "/authz/resource-server/" ++ "permission"])
      ∧ (((permissions.update client realm cid (some p) t tFind).requests.map
          HttpRequest.url).head?
        = some (client.baseUrl ++ "/admin/realms/" ++ realm ++ "/clients/" ++
            cid ++ "/authz/resource-server/" ++ "permission" ++ "/" ++
            jsStr p.type? ++ "/" ++ jsStr p.id?))
      ∧ ((permissions.remove client realm cid (some rid) t).requests.map
          HttpRequest.url
        = [client.baseUrl ++ "/admin/realms/" ++ realm ++ "/clients/" ++
            cid ++ "/authz/resource-server/" ++ "permission" ++ "/" ++ rid])
      ∧ ((policies.create client realm cid (some p) t).requests.map
          HttpRequest.url
        = [client.baseUrl ++ "/admin/realms/" ++ realm ++ "/clients/" ++
            cid ++ "/authz/resource-server/" ++ "policy" ++ "/" ++
            jsStr p.type?])
      ∧ ((policies.find client realm cid (some ty) (some rid) t).requests.map
          HttpRequest.url
        = [client.baseUrl ++ "/admin/realms/" ++ realm ++ "/clients/" ++
            cid ++ "/authz/resource-server/" ++ "policy" ++ "/" ++ ty ++
            "/" ++ rid])
      ∧ ((policies.find client realm cid none none t).requests.map
          HttpRequest.url
        = [client.baseUrl ++ "/admin/realms/" ++ realm ++ "/clients/" ++
            cid ++ "/authz/resource-server/" ++ "policy"])
      ∧ (((policies.update client realm cid (some p) t tFind).requests.map
          HttpRequest.url).head?
        = some (client.baseUrl ++ "/admin/realms/" ++ realm ++ "/clients/" ++
            cid ++ "/authz/resource-server/" ++ "policy" ++ "/" ++
            jsStr p.type? ++ "/" ++ jsStr p.id?))
      ∧ ((policies.remove client realm cid (some rid) t).requests.map
          HttpRequest.url
        = [client.baseUrl ++ "/admin/realms/" ++ realm ++ "/clients/" ++
            cid ++ "/authz/resource-server/" ++ "policy" ++ "/" ++ rid]) := by
  intro client realm cid p ty rid t tFind
  refine ⟨?_, ?_, ?_, ?_, ?_, ?_, ?_, ?_, ?_, ?_⟩
  · cases t with
    | error e => rfl
    | completed s b => dsimp only [permissions.create]; split <;> rfl
  · cases t with
    | error e => rfl
    | completed s b => dsimp only [permissions.find]; split <;> rfl
  · cases t with
    | error e => rfl
    | completed s b => dsimp only [permissions.find]; split <;> rfl
  · cases t with
    | error e => rfl
    | completed s b => dsimp only [permissions.update]; split <;> rfl
  · cases t with
    | error e => rfl
    | completed s b => dsimp only [permissions.remove]; split <;> rfl
  · cases t with
    | error e => rfl
    | completed s b => dsimp only [policies.create]; split <;> rfl
  · cases t with
    | error e => rfl
    | completed s b => dsimp only [policies.find]; split <;> rfl
  · cases t with
    | error e => rfl
    | completed s b => dsimp only [policies.find]; split <;> rfl
  · cases t with
    | error e => rfl
    | completed s b => dsimp only [policies.update]; split <;> rfl
  · cases t with
    | error e => rfl
    | completed s b => dsimp only [policies.remove]; split <;> rfl

/-- C7: every operation settles exactly once — for every combination of
argument values (record or id present or absent) and transport outcomes,
the list of resolve/reject calls has length one, on every code path. -/
theorem C7_settles_exactly_once :
    ∀ (client : Client) (realm cid : String) (record : Option ResourceRep)
      (ty pid rid : Option String) (t tFind : TransportResult),
      (permissions.create client realm cid record t).settlements.length = 1
      ∧ (permissions.find client realm cid ty pid t).settlements.length = 1
      ∧ (permissions.update client realm cid record t
          tFind).settlements.length = 1
      ∧ (permissions.remove client realm cid rid t).settlements.length = 1
      ∧ (policies.create client realm cid record t).settlements.length = 1
      ∧ (policies.find client realm cid ty pid t).settlements.length = 1
      ∧ (policies.update client realm cid record t
          tFind).settlements.length = 1
      ∧ (policies.remove client realm cid rid t).settlements.length = 1 := by
  intro client realm cid record ty pid rid t tFind
  refine ⟨?_, ?_, ?_, ?_, ?_, ?_, ?_, ?_⟩
  · cases record with
    | none => rfl
    | some p =>
      cases t with
      | error e => rfl
      | completed s b => dsimp only [permissions.create]; split <;> rfl
  · cases t with
    | error e => rfl
    | completed s b => dsimp only [permissions.find]; split <;> rfl
  · cases record with
    | none => rfl
    | some p =>
      cases t with
      | error e => rfl
      | completed s b =>
        dsimp only [permissions.update]
        split
        · rfl
        · cases tFind with
          | error e => rfl
          | completed s2 b2 => dsimp only [permissions.find]; split <;> rfl
  · cases rid with
    | none => rfl
    | some v =>
      cases t with
      | error e => rfl
      | completed s b => dsimp only [permissions.remove]; split <;> rfl
  · cases record with
    | none => rfl
    | some p =>
      cases t with
      | error e => rfl
      | completed s b => dsimp only [policies.create]; split <;> rfl
  · cases t with
    | error e => rfl
    | completed s b => dsimp only [policies.find]; split <;> rfl
  · cases record with
    | none => rfl
    | some p =>
      cases t with
      | error e => rfl
      | completed s b =>
        dsimp only [policies.update]
        split
        · rfl
        · cases tFind with
          | error e => rfl
          | completed s2 b2 => dsimp only [policies.find]; split <;> rfl
  · cases rid with
    | none => rfl
    | some v =>
      cases t with
      | error e => rfl
      | completed s b => dsimp only [policies.remove]; split <;> rfl

/-- C8: the permissions module and the policies module are behaviourally
identical — every verb of each module is exactly the common template
instantiated at its resource-type segment, which fixes both the URL path
segment ("permission" vs "policy") and the argument name used in the
missing-argument error messages. -/
theorem C8_modules_instantiate_common_template :
    permissions.create = generic.create "permission"
    ∧ permissions.find = generic.find "permission"
    ∧ permissions.update = generic.update "permission"
    ∧ permissions.remove = generic.remove "permission"
    ∧ policies.create = generic.create "policy"
    ∧ policies.find = generic.find "policy"
    ∧ policies.update = generic.update "policy"
    ∧ policies.remove = generic.remove "policy" :=
  ⟨rfl, rfl, rfl, rfl, rfl, rfl, rfl, rfl⟩

/-- C9: a find call where exactly one of the type and id arguments is
provided does not reject locally: it builds the same request as a find
with neither argument (the bare collection endpoint, the provided value
ignored), and on a 200 response it resolves with the response body — the
full collection. -/
theorem C9_find_one_sided_pair_targets_collection :
    ∀ (client : Client) (realm cid v : String) (t : TransportResult)
      (b : JsValue),
      ((permissions.find client realm cid (some v) none t).requests
        = (permissions.find client realm cid none none t).requests)
      ∧ ((permissions.find client realm cid none (some v) t).requests
        = (permissions.find client realm cid none none t).requests)
      ∧ ((permissions.find client realm cid (some v) none
          (.completed 200 b)).settlements = [.resolved b])
      ∧ ((permissions.find client realm cid none (some v)
          (.completed 200 b)).settlements = [.resolved b])
      ∧ ((policies.find client realm cid (some v) none t).requests
        = (policies.find client realm cid none none t).requests)
      ∧ ((policies.find client realm cid none (some v) t).requests
        = (policies.find client realm cid none none t).requests)
      ∧ ((policies.find client realm cid (some v) none
          (.completed 200 b)).settlements = [.resolved b])
      ∧ ((policies.find client realm cid none (some v)
          (.completed 200 b)).settlements = [.resolved b]) := by
  intro client realm cid v t b
  refine ⟨?_, ?_, rfl, rfl, ?_, ?_, rfl, rfl⟩
  · cases t <;> rfl
  · cases t <;> rfl
  · cases t <;> rfl
  · cases t <;> rfl

/-- C10: a create or update call whose record is a truthy object lacking a
type (or, for update, an id) field is not rejected as missing-argument:
the request is still issued, with the literal string "undefined"
interpolated into the corresponding URL path segment. -/
theorem C10_absent_fields_become_undefined_segments :
    ∀ (client : Client) (realm cid : String) (ty? i? : Option String)
      (rest : String) (t tFind : TransportResult),
      ((permissions.create client realm cid (some ⟨none, i?, rest⟩)
          t).requests.map HttpRequest.url
        = [client.baseUrl ++ "/admin/realms/" ++ realm ++ "/clients/" ++
            cid ++ "/authz/resource-server/" ++ "permission" ++ "/" ++
            "undefined"])
      ∧ (((permissions.update client realm cid (some ⟨none, i?, rest⟩) t
          tFind).requests.map HttpRequest.url).head?
        = some (client.baseUrl ++ "/admin/realms/" ++ realm ++ "/clients/" ++
            cid ++ "/authz/resource-server/" ++ "permission" ++ "/" ++
            "undefined" ++ "/" ++ jsStr i?))
      ∧ (((permissions.update client realm cid (some ⟨ty?, none, rest⟩) t
          tFind).requests.map HttpRequest.url).head?
        = some (client.baseUrl ++ "/admin/realms/" ++ realm ++ "/clients/" ++
            cid ++ "/authz/resource-server/" ++ "permission" ++ "/" ++
            jsStr ty? ++ "/" ++ "undefined"))
      ∧ ((policies.create client realm cid (some ⟨none, i?, rest⟩)
          t).requests.map HttpRequest.url
        = [client.baseUrl ++ "/admin/realms/" ++ realm ++ "/clients/" ++
            cid ++ "/authz/resource-server/" ++ "policy" ++ "/" ++
            "undefined"])
      ∧ (((policies.update client realm cid (some ⟨none, i?, rest⟩) t
          tFind).requests.map HttpRequest.url).head?
        = some (client.baseUrl ++ "/admin/realms/" ++ realm ++ "/clients/" ++
            cid ++ "/authz/resource-server/" ++ "policy" ++ "/" ++
            "undefined" ++ "/" ++ jsStr i?))
      ∧ (((policies.update client realm cid (some ⟨ty?, none, rest⟩) t
          tFind).requests.map HttpRequest.url).head?
        = some (client.baseUrl ++ "/admin/realms/" ++ realm ++ "/clients/" ++
            cid ++ "/authz/resource-server/" ++ "policy" ++ "/" ++
            jsStr ty? ++ "/" ++ "undefined")) := by
  intro client realm cid ty? i? rest t tFind
  refine ⟨?_, ?_, ?_, ?_, ?_, ?_⟩
  · cases t with
    | error e => rfl
    | completed s b => dsimp only [permissions.create]; split <;> rfl
  · cases t with
    | error e => rfl
    | completed s b => dsimp only [permissions.update]; split <;> rfl
  · cases t with
    | error e => rfl
    | completed s b => dsimp only [permissions.update]; split <;> rfl
  · cases t with
    | error e => rfl
    | completed s b => dsimp only [policies.create]; split <;> rfl
  · cases t with
    | error e => rfl
    | completed s b => dsimp only [policies.update]; split <;> rfl
  · cases t with
    | error e => rfl
    | completed s b => dsimp only [policies.update]; split <;> rfl
